import Mathlib

/-!
Shallow embedding of the Pro Controller protocol core (`pyjoycon/procon.py`).

Conventions:
* Python bytes are natural numbers; byte sequences are `List ℕ`.
* Python floats are modelled as exact rationals (`ℚ`); the arithmetic the
  calibration code performs (division of small integers, subtraction,
  multiplication) is stated over `ℚ`.
* Python exceptions are modelled with `Option`/`Except`: `none`/`.error`
  means the corresponding Python call raises.
* Device writes are recorded in an explicit trace (a list of the raw output
  reports written), so "the device was not contacted" is "the trace is empty".
-/

namespace Procon

/-- INPUT_REPORT_SIZE constant of the class (49 bytes). -/
def INPUT_REPORT_SIZE : ℕ := 49

/-- RUMBLE_DATA constant: the fixed neutral 8-byte rumble payload. -/
def RUMBLE_DATA : List ℕ := [0x00, 0x01, 0x40, 0x40, 0x00, 0x01, 0x40, 0x40]

/-- Indexing `report[i]` into a byte sequence. Out-of-range reads return 0
here; every claim below constrains the report length so that all indices the
code uses are in range, where this agrees with Python indexing. -/
def byteAt (r : List ℕ) (i : ℕ) : ℕ := r.getD i 0

/-- Calibration state: the per-axis offset and coefficient attributes set by
set_accel_calibration and set_gyro_calibration. -/
structure CalibState where
  accel_offset_x : Int
  accel_offset_y : Int
  accel_offset_z : Int
  accel_coeff_x : ℚ
  accel_coeff_y : ℚ
  accel_coeff_z : ℚ
  gyro_offset_x : Int
  gyro_offset_y : Int
  gyro_offset_z : Int
  gyro_coeff_x : ℚ
  gyro_coeff_y : ℚ
  gyro_coeff_z : ℚ
deriving DecidableEq

/-- A calibration state with all fields zero; stands for the fresh object
before `__init__` runs the two calibration setters (both setters overwrite
every field they touch, so nothing below depends on these values). -/
def zeroCalib : CalibState :=
  { accel_offset_x := 0, accel_offset_y := 0, accel_offset_z := 0,
    accel_coeff_x := 0, accel_coeff_y := 0, accel_coeff_z := 0,
    gyro_offset_x := 0, gyro_offset_y := 0, gyro_offset_z := 0,
    gyro_coeff_x := 0, gyro_coeff_y := 0, gyro_coeff_z := 0 }

/-- Python true division `a / b` on integers, as an exact rational;
`none` models `ZeroDivisionError` when `b = 0`. -/
def pyDiv (a b : Int) : Option ℚ :=
  if b = 0 then none else some ((a : ℚ) / (b : ℚ))

/-- The accelerometer coefficient expression
`0x4000 / c if c != 0x4000 else 1` from set_accel_calibration. -/
def accel_coeff_rule (c : Int) : Option ℚ :=
  if c ≠ 0x4000 then pyDiv 0x4000 c else some 1

/-- The gyroscope coefficient expression
`0x343b / c if c != 0x343b else 1` from set_gyro_calibration. -/
def gyro_coeff_rule (c : Int) : Option ℚ :=
  if c ≠ 0x343b then pyDiv 0x343b c else some 1

/-- set_accel_calibration: stores the offsets as given when `offset_xyz` is
passed, and stores the coefficients through `accel_coeff_rule` when
`coeff_xyz` is passed. `none` models a `ZeroDivisionError` escaping the call. -/
def set_accel_calibration (offset_xyz coeff_xyz : Option (Int × Int × Int))
    (s : CalibState) : Option CalibState :=
  let s1 := match offset_xyz with
    | some (ox, oy, oz) =>
      { s with accel_offset_x := ox, accel_offset_y := oy, accel_offset_z := oz }
    | none => s
  match coeff_xyz with
  | none => some s1
  | some (cx, cy, cz) =>
    match accel_coeff_rule cx, accel_coeff_rule cy, accel_coeff_rule cz with
    | some kx, some ky, some kz =>
      some { s1 with accel_coeff_x := kx, accel_coeff_y := ky, accel_coeff_z := kz }
    | _, _, _ => none

/-- set_gyro_calibration, mirroring `set_accel_calibration` with divisor
`0x343b`. -/
def set_gyro_calibration (offset_xyz coeff_xyz : Option (Int × Int × Int))
    (s : CalibState) : Option CalibState :=
  let s1 := match offset_xyz with
    | some (ox, oy, oz) =>
      { s with gyro_offset_x := ox, gyro_offset_y := oy, gyro_offset_z := oz }
    | none => s
  match coeff_xyz with
  | none => some s1
  | some (cx, cy, cz) =>
    match gyro_coeff_rule cx, gyro_coeff_rule cy, gyro_coeff_rule cz with
    | some kx, some ky, some kz =>
      some { s1 with gyro_coeff_x := kx, gyro_coeff_y := ky, gyro_coeff_z := kz }
    | _, _, _ => none

/-- The calibration state produced by `__init__`:
`set_accel_calibration((0, 0, 0), (1, 1, 1))` followed by
`set_gyro_calibration((0, 0, 0), (1, 1, 1))`, before any device-read
calibration is applied. -/
def init_calibration : Option CalibState :=
  (set_accel_calibration (some (0, 0, 0)) (some (1, 1, 1)) zeroCalib).bind
    (fun s => set_gyro_calibration (some (0, 0, 0)) (some (1, 1, 1)) s)

/-- The concrete value `init_calibration` computes to: all offsets 0, every
accelerometer coefficient `0x4000` and every gyroscope coefficient `0x343b`
(the raw coefficient 1 fed through the divisor rule gives `D / 1 = D`). -/
def expected_init_calib : CalibState :=
  { accel_offset_x := 0, accel_offset_y := 0, accel_offset_z := 0,
    accel_coeff_x := 0x4000, accel_coeff_y := 0x4000, accel_coeff_z := 0x4000,
    gyro_offset_x := 0, gyro_offset_y := 0, gyro_offset_z := 0,
    gyro_coeff_x := 0x343b, gyro_coeff_y := 0x343b, gyro_coeff_z := 0x343b }

/-- Models `_write_output_report`: frames one output report
`command ++ [packet counter] ++ rumble ++ subcommand ++ argument`, writes it to
the device, and advances the packet counter by `(n + 1) & 0xF`. Returns the
bytes written and the new counter value. The counter byte uses
`to_bytes(1, "little")`, which requires the counter below 256; the reachable
counter values are at most 15 (proved below). -/
def write_output_report (command subcommand argument : List ℕ)
    (packet_number : ℕ) : List ℕ × ℕ :=
  (command ++ [packet_number] ++ RUMBLE_DATA ++ subcommand ++ argument,
   (packet_number + 1) &&& 0xF)

/-- One transition of the packet counter, as performed by a send through
`write_output_report` (the written payload does not affect the counter). -/
def packet_step (packet_number : ℕ) : ℕ :=
  (write_output_report [0x01] [] [] packet_number).2

/-- Packet-counter values reachable from construction (`_packet_number = 0`)
by any sequence of sends. -/
inductive ReachableCounter : ℕ → Prop
  | base : ReachableCounter 0
  | step (n : ℕ) : ReachableCounter n → ReachableCounter (packet_step n)

/-- Models `_send_subcmd_get_response`. The blocking read loop that discards
input reports whose byte 0 is not `0x21` is modelled by taking the first
`0x21`-reply the device produces as the parameter `reply`. Returns
`((ack, payload), (writes, counter'))` where `ack = reply[13] & 0x80`
(Python-truthy iff nonzero), `payload = reply[13:]`, `writes` is the list of
raw output reports written, and `counter'` the advanced packet counter. -/
def send_subcmd_get_response (reply : List ℕ) (packet_number : ℕ)
    (subcommand argument : List ℕ) : (ℕ × List ℕ) × (List (List ℕ) × ℕ) :=
  ((byteAt reply 13 &&& 0x80, reply.drop 13),
   ([(write_output_report [0x01] subcommand argument packet_number).1],
    (write_output_report [0x01] subcommand argument packet_number).2))

/-- Little-endian `v.to_bytes(len, "little")`; `none` models `OverflowError`
when `v` does not fit in `len` bytes. -/
def int_to_bytes_le : ℕ → ℕ → Option (List ℕ)
  | 0, v => if v = 0 then some [] else none
  | n + 1, v =>
    match int_to_bytes_le n (v / 256) with
    | some rest => some (v % 256 :: rest)
    | none => none

/-- Errors `_spi_flash_read` can raise: the failed `assert size <= 0x1d`,
an address too large for `to_bytes(4, "little")`, the cleared ack bit, and a
reply header other than `0x90 0x10`. -/
inductive SpiError where
  | assertionError
  | overflowError
  | readFailed
  | unexpectedResponse
deriving DecidableEq

/-- Models `_spi_flash_read(address, size)`, with the device's `0x21` reply
and the current packet counter as parameters. Returns the result together
with the trace of raw output reports written; the device is contacted only
through `send_subcmd_get_response`, so an empty trace means no report was
sent. -/
def spi_flash_read (reply : List ℕ) (packet_number : ℕ) (address size : ℕ) :
    Except SpiError (List ℕ) × List (List ℕ) :=
  if size ≤ 0x1d then
    match int_to_bytes_le 4 address with
    | none => (Except.error SpiError.overflowError, [])
    | some addressBytes =>
      let argument := addressBytes ++ [size]
      let r := send_subcmd_get_response reply packet_number [0x10] argument
      let ack := r.1.1
      let report := r.1.2
      if ack = 0 then (Except.error SpiError.readFailed, r.2.1)
      else if report.take 2 ≠ [0x90, 0x10] then
        (Except.error SpiError.unexpectedResponse, r.2.1)
      else (Except.ok ((report.drop 7).take size), r.2.1)
  else (Except.error SpiError.assertionError, [])

/-- Models the inner helper `to_int16le(hbyte, lbyte)` of
`_set_imu_calibration`: assembles `(lbyte << 8) | hbyte` and subtracts 65536
when the unsigned value is at least 32768. (`hbyte` is the first, lower
address byte, i.e. the little-endian low byte.) -/
def to_int16le (hbyte lbyte : ℕ) : Int :=
  let uint16le := (lbyte <<< 8) ||| hbyte
  if uint16le < 32768 then (uint16le : Int) else (uint16le : Int) - 65536

/-- The standard two's-complement little-endian encoding of an integer in
[-32768, 32767] as two bytes (low byte, high byte); used to state the
round-trip property of `to_int16le`. -/
def int16_to_bytes_le (v : Int) : ℕ × ℕ :=
  ((v % 65536).toNat % 256, (v % 65536).toNat / 256)

/-- Models `int.from_bytes(two bytes, "little", signed=True)` as used by
`_get_accel_value`/`_get_gyro_value`. -/
def int_from_bytes2_le_signed (b0 b1 : ℕ) : Int :=
  let u := (b1 <<< 8) ||| b0
  if u < 32768 then (u : Int) else (u : Int) - 65536

/-- Battery part of the status snapshot. -/
structure BatteryStatus where
  charging : Bool
  level : ℕ
deriving DecidableEq

/-- Button part of the status snapshot (the 18 named buttons). -/
structure ButtonStatus where
  a : Bool
  b : Bool
  x : Bool
  y : Bool
  plus : Bool
  minus : Bool
  home : Bool
  capture : Bool
  l : Bool
  zl : Bool
  r : Bool
  zr : Bool
  l_stick : Bool
  r_stick : Bool
  up : Bool
  down : Bool
  left : Bool
  right : Bool
deriving DecidableEq

/-- One analog stick's decoded coordinates. -/
structure StickStatus where
  horizontal : ℕ
  vertical : ℕ
deriving DecidableEq

/-- A three-axis IMU reading. -/
structure ImuAxes where
  x : ℚ
  y : ℚ
  z : ℚ
deriving DecidableEq

/-- The status snapshot returned by `get_status`. -/
structure Status where
  battery : BatteryStatus
  buttons : ButtonStatus
  left_stick : StickStatus
  right_stick : StickStatus
  accel : ImuAxes
  gyro : ImuAxes
deriving DecidableEq

/-- Models `_get_button_state`: `bool(report[byte_idx] & (1 << bit_idx))`. -/
def get_button_state (r : List ℕ) (byte_idx bit_idx : ℕ) : Bool :=
  (byteAt r byte_idx &&& (1 <<< bit_idx)) != 0

/-- Models `_get_stick_value`:
`report[lbyte] | ((report[hbyte] & 0xF) << shift)`. -/
def get_stick_value (r : List ℕ) (lbyte hbyte shift : ℕ) : ℕ :=
  byteAt r lbyte ||| ((byteAt r hbyte &&& 0xF) <<< shift)

/-- Models `_get_left_stick_state`. -/
def get_left_stick_state (r : List ℕ) : StickStatus :=
  { horizontal := get_stick_value r 6 7 8, vertical := get_stick_value r 7 8 4 }

/-- Models `_get_right_stick_state`. -/
def get_right_stick_state (r : List ℕ) : StickStatus :=
  { horizontal := get_stick_value r 9 10 8, vertical := get_stick_value r 10 11 4 }

/-- Accelerometer offset attribute selected by axis index (the Python code
builds the attribute name from `["x","y","z"][axis]`; only axes 0, 1, 2 are
ever used). -/
def accel_offset_at (s : CalibState) : ℕ → Int
  | 0 => s.accel_offset_x
  | 1 => s.accel_offset_y
  | _ => s.accel_offset_z

/-- Accelerometer coefficient attribute selected by axis index. -/
def accel_coeff_at (s : CalibState) : ℕ → ℚ
  | 0 => s.accel_coeff_x
  | 1 => s.accel_coeff_y
  | _ => s.accel_coeff_z

/-- Gyroscope offset attribute selected by axis index. -/
def gyro_offset_at (s : CalibState) : ℕ → Int
  | 0 => s.gyro_offset_x
  | 1 => s.gyro_offset_y
  | _ => s.gyro_offset_z

/-- Gyroscope coefficient attribute selected by axis index. -/
def gyro_coeff_at (s : CalibState) : ℕ → ℚ
  | 0 => s.gyro_coeff_x
  | 1 => s.gyro_coeff_y
  | _ => s.gyro_coeff_z

/-- Models `_get_accel_value`: signed 16-bit little-endian raw value at offset
`13 + axis * 2`, then `(raw - offset) * coefficient`. -/
def get_accel_value (r : List ℕ) (s : CalibState) (axis : ℕ) : ℚ :=
  ((int_from_bytes2_le_signed (byteAt r (13 + axis * 2))
      (byteAt r (13 + axis * 2 + 1)) : ℚ) - (accel_offset_at s axis : ℚ)) *
    accel_coeff_at s axis

/-- Models `_get_gyro_value`: signed 16-bit little-endian raw value at offset
`19 + axis * 2`, then `(raw - offset) * coefficient`. -/
def get_gyro_value (r : List ℕ) (s : CalibState) (axis : ℕ) : ℚ :=
  ((int_from_bytes2_le_signed (byteAt r (19 + axis * 2))
      (byteAt r (19 + axis * 2 + 1)) : ℚ) - (gyro_offset_at s axis : ℚ)) *
    gyro_coeff_at s axis

/-- Models `_get_accel_state`. -/
def get_accel_state (r : List ℕ) (s : CalibState) : ImuAxes :=
  { x := get_accel_value r s 0, y := get_accel_value r s 1,
    z := get_accel_value r s 2 }

/-- Models `_get_gyro_state`. -/
def get_gyro_state (r : List ℕ) (s : CalibState) : ImuAxes :=
  { x := get_gyro_value r s 0, y := get_gyro_value r s 1,
    z := get_gyro_value r s 2 }

/-- Models `_get_battery_charging`: `bool(report[2] & 0x10)`. -/
def get_battery_charging (r : List ℕ) : Bool :=
  (byteAt r 2 &&& 0x10) != 0

/-- Models `_get_battery_level`: `(report[2] & 0xE0) >> 5`. -/
def get_battery_level (r : List ℕ) : ℕ :=
  (byteAt r 2 &&& 0xE0) >>> 5

/-- Models `get_status`: decodes the current raw input report with the current
calibration state into one snapshot. The (byte, bit) pairs are exactly the
ones in the source's button table. -/
def get_status (r : List ℕ) (s : CalibState) : Status :=
  { battery := { charging := get_battery_charging r, level := get_battery_level r },
    buttons :=
      { a := get_button_state r 3 3,
        b := get_button_state r 3 2,
        x := get_button_state r 3 1,
        y := get_button_state r 3 0,
        plus := get_button_state r 4 1,
        minus := get_button_state r 4 0,
        home := get_button_state r 4 4,
        capture := get_button_state r 4 5,
        l := get_button_state r 5 6,
        zl := get_button_state r 5 7,
        r := get_button_state r 3 6,
        zr := get_button_state r 3 7,
        l_stick := get_button_state r 4 3,
        r_stick := get_button_state r 4 2,
        up := get_button_state r 5 1,
        down := get_button_state r 5 0,
        left := get_button_state r 5 3,
        right := get_button_state r 5 2 },
    left_stick := get_left_stick_state r,
    right_stick := get_right_stick_state r,
    accel := get_accel_state r s,
    gyro := get_gyro_state r s }

/-- The raw input report as initialized in `__init__`:
`bytes(self._INPUT_REPORT_SIZE)`, i.e. 49 zero bytes. -/
def init_input_report : List ℕ := List.replicate INPUT_REPORT_SIZE 0

/-- A synthetic 49-byte raw input report whose byte 3 is `0x08` (only bit 3
set) and whose other bytes are zero. -/
def c3_report : List ℕ := [0, 0, 0, 0x08] ++ List.replicate 45 0

/-- A synthetic 49-byte raw input report with `(0xFF, 0x0F)` at the left
stick's horizontal byte pair (bytes 6 and 7) and zeros elsewhere. -/
def stick_max_report : List ℕ :=
  [0, 0, 0, 0, 0, 0, 0xFF, 0x0F, 0] ++ List.replicate 40 0

/-- A synthetic `0x21` subcommand reply: 49 bytes, byte 13 = `0x90` (ack bit
set) and byte 14 = `0x10`, so the first two payload bytes are `0x90 0x10` and
an SPI read succeeds on it; the data bytes are all 7. -/
def ack_reply : List ℕ :=
  [0x21] ++ List.replicate 12 0 ++ [0x90, 0x10] ++ List.replicate 34 7

end Procon

namespace Procon

/-! Helper lemmas shared by the claim theorems. -/

/-- Evaluation of the accelerometer coefficient expression at a nonzero raw
coefficient. -/
theorem accel_coeff_rule_eq (c : Int) (hc : c ≠ 0) :
    accel_coeff_rule c = some (if c = 0x4000 then 1 else (0x4000 : ℚ) / (c : ℚ)) := by
  by_cases h : c = 0x4000 <;> simp [accel_coeff_rule, pyDiv, h, hc]

/-- Evaluation of the gyroscope coefficient expression at a nonzero raw
coefficient. -/
theorem gyro_coeff_rule_eq (c : Int) (hc : c ≠ 0) :
    gyro_coeff_rule c = some (if c = 0x343b then 1 else (0x343b : ℚ) / (c : ℚ)) := by
  by_cases h : c = 0x343b <;> simp [gyro_coeff_rule, pyDiv, h, hc]

/-- Splitting a natural number into its low byte and the rest and recombining
with shift/or is the identity. -/
theorem le_bytes_recombine (u : ℕ) : ((u / 256) <<< 8) ||| u % 256 = u := by
  rw [Nat.shiftLeft_eq, Nat.mul_comm,
    ← Nat.mul_add_lt_is_or (by omega : u % 256 < 2 ^ 8) (u / 256)]
  omega

/-! Claim theorems. -/

/-- C1, counterexample. The claim says that at construction every stored
calibration coefficient is exactly 1; in fact `__init__` feeds the raw
coefficient 1 through the divisor rule, storing `0x4000 / 1 = 16384` for each
accelerometer axis (and `0x343b / 1 = 13371` for each gyroscope axis), so the
stored accelerometer x coefficient is 16384, not 1. -/
theorem C1_counterexample :
    init_calibration = some expected_init_calib ∧
    expected_init_calib.accel_coeff_x = 16384 ∧ (16384 : ℚ) ≠ 1 := by
  refine ⟨?_, rfl, by norm_num⟩
  norm_num [init_calibration, set_accel_calibration, set_gyro_calibration,
    accel_coeff_rule, gyro_coeff_rule, pyDiv, zeroCalib, expected_init_calib]

/-- C1, amended. At construction, before any device calibration is read, the
calibration state has every offset 0 and every stored coefficient equal to
the sensor's divisor (`0x4000` for the accelerometer axes, `0x343b` for the
gyroscope axes), i.e. the value `D / 1` that the divisor rule produces from
the raw coefficient 1 passed by `__init__`. -/
theorem C1_init_calibration :
    init_calibration = some expected_init_calib := by
  norm_num [init_calibration, set_accel_calibration, set_gyro_calibration,
    accel_coeff_rule, gyro_coeff_rule, pyDiv, zeroCalib, expected_init_calib]

/-- C2, counterexample. The claim says no input to the calibration setters can
reach a division by zero; in fact the raw coefficient 0 satisfies the guard
`c != D`, so the code evaluates `D / 0` and raises `ZeroDivisionError` (here:
the coefficient rule and both setters return `none` at 0). -/
theorem C2_counterexample :
    accel_coeff_rule 0 = none ∧ gyro_coeff_rule 0 = none ∧
    set_accel_calibration (some (0, 0, 0)) (some (0, 1, 1)) zeroCalib = none ∧
    set_gyro_calibration (some (0, 0, 0)) (some (0, 1, 1)) zeroCalib = none := by
  refine ⟨by decide, by decide, ?_, ?_⟩ <;>
    norm_num [set_accel_calibration, set_gyro_calibration,
      accel_coeff_rule, gyro_coeff_rule, pyDiv]

/-- C2, amended. For every nonzero raw coefficient the setters never divide by
zero (both calls succeed); the raw coefficient 0, however, takes the division
branch because `0 != D`, and raises `ZeroDivisionError`. -/
theorem C2_nonzero_no_zero_division (ox oy oz cx cy cz : Int) (s : CalibState)
    (hx : cx ≠ 0) (hy : cy ≠ 0) (hz : cz ≠ 0) :
    (set_accel_calibration (some (ox, oy, oz)) (some (cx, cy, cz)) s).isSome = true ∧
    (set_gyro_calibration (some (ox, oy, oz)) (some (cx, cy, cz)) s).isSome = true := by
  constructor <;>
    simp [set_accel_calibration, set_gyro_calibration,
      accel_coeff_rule_eq _ hx, accel_coeff_rule_eq _ hy, accel_coeff_rule_eq _ hz,
      gyro_coeff_rule_eq _ hx, gyro_coeff_rule_eq _ hy, gyro_coeff_rule_eq _ hz]

/-- Witness for C2: the amended theorem applied at the concrete nonzero raw
coefficients (2, 3, 4). -/
theorem C2_nonzero_no_zero_division_witness :
    (2 : Int) ≠ 0 ∧ (3 : Int) ≠ 0 ∧ (4 : Int) ≠ 0 ∧
    ((set_accel_calibration (some (0, 0, 0)) (some (2, 3, 4)) zeroCalib).isSome = true ∧
     (set_gyro_calibration (some (0, 0, 0)) (some (2, 3, 4)) zeroCalib).isSome = true) :=
  ⟨by decide, by decide, by decide,
    C2_nonzero_no_zero_division 0 0 0 2 3 4 zeroCalib (by decide) (by decide) (by decide)⟩

/-- C3, counterexample. The claim says a report with byte 3 = `0x08` makes
`get_status` report button "y" pressed; in fact bit 3 of byte 3 is button "a"
("y" is bit 0), so on that report "y" decodes to not pressed. -/
theorem C3_counterexample :
    c3_report.length = 49 ∧ byteAt c3_report 3 = 0x08 ∧
    (get_status c3_report zeroCalib).buttons.y = false := by
  refine ⟨by decide, by decide, by decide⟩

/-- C3, amended. For every 49-byte raw input report whose byte 3 equals `0x08`
(only bit 3 set), the snapshot returned by `get_status` reports button "a" as
pressed and every other button decoded from byte 3 (b, x, y, r, zr) as not
pressed. -/
theorem C3_byte3_bit3_is_button_a (r : List ℕ) (c : CalibState)
    (hlen : r.length = 49) (h3 : byteAt r 3 = 0x08) :
    (get_status r c).buttons.a = true ∧
    (get_status r c).buttons.b = false ∧
    (get_status r c).buttons.x = false ∧
    (get_status r c).buttons.y = false ∧
    (get_status r c).buttons.r = false ∧
    (get_status r c).buttons.zr = false := by
  simp only [get_status, get_button_state, h3]
  decide

/-- Witness for C3: the amended theorem applied at the synthetic report with
byte 3 = `0x08` and the construction-time calibration state. -/
theorem C3_byte3_bit3_is_button_a_witness :
    c3_report.length = 49 ∧ byteAt c3_report 3 = 0x08 ∧
    ((get_status c3_report zeroCalib).buttons.a = true ∧
     (get_status c3_report zeroCalib).buttons.b = false ∧
     (get_status c3_report zeroCalib).buttons.x = false ∧
     (get_status c3_report zeroCalib).buttons.y = false ∧
     (get_status c3_report zeroCalib).buttons.r = false ∧
     (get_status c3_report zeroCalib).buttons.zr = false) :=
  ⟨by decide, by decide,
    C3_byte3_bit3_is_button_a c3_report zeroCalib (by decide) (by decide)⟩

/-- C4, confirmed. For every nonzero raw coefficient triple, the setters store
the offsets unchanged and store each coefficient as exactly 1 when the raw
value equals the divisor (`0x4000` accelerometer, `0x343b` gyroscope) and as
`D / c` otherwise. -/
theorem C4_coefficient_rule (ox oy oz cx cy cz : Int) (s : CalibState)
    (hx : cx ≠ 0) (hy : cy ≠ 0) (hz : cz ≠ 0) :
    set_accel_calibration (some (ox, oy, oz)) (some (cx, cy, cz)) s =
      some { s with
        accel_offset_x := ox, accel_offset_y := oy, accel_offset_z := oz,
        accel_coeff_x := if cx = 0x4000 then 1 else (0x4000 : ℚ) / (cx : ℚ),
        accel_coeff_y := if cy = 0x4000 then 1 else (0x4000 : ℚ) / (cy : ℚ),
        accel_coeff_z := if cz = 0x4000 then 1 else (0x4000 : ℚ) / (cz : ℚ) } ∧
    set_gyro_calibration (some (ox, oy, oz)) (some (cx, cy, cz)) s =
      some { s with
        gyro_offset_x := ox, gyro_offset_y := oy, gyro_offset_z := oz,
        gyro_coeff_x := if cx = 0x343b then 1 else (0x343b : ℚ) / (cx : ℚ),
        gyro_coeff_y := if cy = 0x343b then 1 else (0x343b : ℚ) / (cy : ℚ),
        gyro_coeff_z := if cz = 0x343b then 1 else (0x343b : ℚ) / (cz : ℚ) } := by
  constructor <;>
    simp [set_accel_calibration, set_gyro_calibration,
      accel_coeff_rule_eq _ hx, accel_coeff_rule_eq _ hy, accel_coeff_rule_eq _ hz,
      gyro_coeff_rule_eq _ hx, gyro_coeff_rule_eq _ hy, gyro_coeff_rule_eq _ hz]

/-- Witness for C4: the coefficient-rule theorem applied at the concrete
offsets (1, 2, 3) and raw coefficients (2, 0x4000, 5). -/
theorem C4_coefficient_rule_witness :
    (2 : Int) ≠ 0 ∧ (0x4000 : Int) ≠ 0 ∧ (5 : Int) ≠ 0 ∧
    (set_accel_calibration (some (1, 2, 3)) (some (2, 0x4000, 5)) zeroCalib =
      some { zeroCalib with
        accel_offset_x := 1, accel_offset_y := 2, accel_offset_z := 3,
        accel_coeff_x := if (2 : Int) = 0x4000 then 1 else (0x4000 : ℚ) / ((2 : Int) : ℚ),
        accel_coeff_y := if (0x4000 : Int) = 0x4000 then 1 else (0x4000 : ℚ) / ((0x4000 : Int) : ℚ),
        accel_coeff_z := if (5 : Int) = 0x4000 then 1 else (0x4000 : ℚ) / ((5 : Int) : ℚ) } ∧
     set_gyro_calibration (some (1, 2, 3)) (some (2, 0x4000, 5)) zeroCalib =
      some { zeroCalib with
        gyro_offset_x := 1, gyro_offset_y := 2, gyro_offset_z := 3,
        gyro_coeff_x := if (2 : Int) = 0x343b then 1 else (0x343b : ℚ) / ((2 : Int) : ℚ),
        gyro_coeff_y := if (0x4000 : Int) = 0x343b then 1 else (0x343b : ℚ) / ((0x4000 : Int) : ℚ),
        gyro_coeff_z := if (5 : Int) = 0x343b then 1 else (0x343b : ℚ) / ((5 : Int) : ℚ) }) :=
  ⟨by decide, by decide, by decide,
    C4_coefficient_rule 1 2 3 2 0x4000 5 zeroCalib (by decide) (by decide) (by decide)⟩

/-- C5, confirmed. For every address and every size at most `0x1D`, on a
49-byte reply `_spi_flash_read` raises and returns no data whenever the ack
bit (bit 7 of byte 13) is cleared, raises whenever the first two payload
bytes differ from `0x90 0x10`, and on success returns exactly `size` bytes
starting at payload offset 7. -/
theorem C5_spi_flash_read_validation (reply : List ℕ) (pn address size : ℕ)
    (hlen : reply.length = 49) (hsize : size ≤ 0x1d) :
    (byteAt reply 13 &&& 0x80 = 0 →
      ∃ e, (spi_flash_read reply pn address size).1 = Except.error e) ∧
    ((reply.drop 13).take 2 ≠ [0x90, 0x10] →
      ∃ e, (spi_flash_read reply pn address size).1 = Except.error e) ∧
    (∀ d, (spi_flash_read reply pn address size).1 = Except.ok d →
      d.length = size ∧ d = ((reply.drop 13).drop 7).take size) := by
  unfold spi_flash_read send_subcmd_get_response
  rw [if_pos hsize]
  split
  · exact ⟨fun _ => ⟨_, rfl⟩, fun _ => ⟨_, rfl⟩, fun d hd => by cases hd⟩
  · dsimp only
    split
    · exact ⟨fun _ => ⟨_, rfl⟩, fun _ => ⟨_, rfl⟩, fun d hd => by cases hd⟩
    · next hack =>
      split
      · exact ⟨fun _ => ⟨_, rfl⟩, fun _ => ⟨_, rfl⟩, fun d hd => by cases hd⟩
      · next hhdr =>
        refine ⟨fun h => absurd h hack, fun h => absurd h hhdr, fun d hd => ?_⟩
        cases hd
        refine ⟨?_, rfl⟩
        rw [List.length_take, List.length_drop, List.length_drop, hlen]
        omega

/-- Witness for C5: the validation theorem applied at the synthetic successful
reply `ack_reply`, packet counter 0, the color data address `0x6050` and
size 6. -/
theorem C5_spi_flash_read_validation_witness :
    ack_reply.length = 49 ∧ (6 : ℕ) ≤ 0x1d ∧
    ((byteAt ack_reply 13 &&& 0x80 = 0 →
      ∃ e, (spi_flash_read ack_reply 0 0x6050 6).1 = Except.error e) ∧
     ((ack_reply.drop 13).take 2 ≠ [0x90, 0x10] →
      ∃ e, (spi_flash_read ack_reply 0 0x6050 6).1 = Except.error e) ∧
     (∀ d, (spi_flash_read ack_reply 0 0x6050 6).1 = Except.ok d →
      d.length = 6 ∧ d = ((ack_reply.drop 13).drop 7).take 6)) :=
  ⟨by decide, by decide,
    C5_spi_flash_read_validation ack_reply 0 0x6050 6 (by decide) (by decide)⟩

/-- C6, confirmed. For every size strictly greater than `0x1D`, the failed
`assert size <= 0x1d` aborts `_spi_flash_read` before anything is sent: the
write trace is empty (the device is contacted only through the send helper,
so no output report and no read happens) and the result is the assertion
error. -/
theorem C6_spi_flash_read_rejects_oversize (reply : List ℕ)
    (pn address size : ℕ) (h : 0x1d < size) :
    (spi_flash_read reply pn address size).2 = [] ∧
    (spi_flash_read reply pn address size).1 =
      Except.error SpiError.assertionError := by
  unfold spi_flash_read
  rw [if_neg (by omega)]
  exact ⟨rfl, rfl⟩

/-- Witness for C6: the fail-fast theorem applied at size 30, one past the
limit. -/
theorem C6_spi_flash_read_rejects_oversize_witness :
    (0x1d : ℕ) < 30 ∧
    ((spi_flash_read ack_reply 0 0x6050 30).2 = [] ∧
     (spi_flash_read ack_reply 0 0x6050 30).1 =
       Except.error SpiError.assertionError) :=
  ⟨by decide, C6_spi_flash_read_rejects_oversize ack_reply 0 0x6050 30 (by decide)⟩

/-- C7, confirmed. In every state reachable from construction, the packet
counter lies in [0, 15]; each send advances it to `(n + 1) % 16`, and 16
consecutive sends return it to its starting value. -/
theorem C7_packet_counter_invariant (n : ℕ) (h : ReachableCounter n) :
    n ≤ 15 ∧ packet_step n = (n + 1) % 16 ∧ packet_step^[16] n = n := by
  have inv : n ≤ 15 := by
    induction h with
    | base => decide
    | step m hm ih =>
      show (m + 1) &&& 0xF ≤ 15
      exact Nat.and_le_right
  have key : ∀ m, m ≤ 15 → packet_step m = (m + 1) % 16 ∧ packet_step^[16] m = m := by
    decide
  exact ⟨inv, key n inv⟩

/-- Witness for C7: the counter invariant applied at the construction state
`_packet_number = 0`. -/
theorem C7_packet_counter_invariant_witness :
    ReachableCounter 0 ∧
    (0 ≤ 15 ∧ packet_step 0 = (0 + 1) % 16 ∧ packet_step^[16] 0 = 0) :=
  ⟨ReachableCounter.base, C7_packet_counter_invariant 0 ReachableCounter.base⟩

/-- C8, confirmed. For every 49-byte raw input report, the decoded left-stick
horizontal value is byte 6 or-ed with the low nibble of byte 7 shifted left 8,
the vertical value is byte 7 or-ed with the low nibble of byte 8 shifted left
4, and the right stick is decoded identically from bytes 9-11; horizontal
byte pair `(0xFF, 0x0F)` decodes to 4095 and `(0x00, 0x00)` to 0. -/
theorem C8_stick_decoding (r : List ℕ) (c : CalibState) (hlen : r.length = 49) :
    (get_status r c).left_stick.horizontal =
      (byteAt r 6 ||| ((byteAt r 7 &&& 0xF) <<< 8)) ∧
    (get_status r c).left_stick.vertical =
      (byteAt r 7 ||| ((byteAt r 8 &&& 0xF) <<< 4)) ∧
    (get_status r c).right_stick.horizontal =
      (byteAt r 9 ||| ((byteAt r 10 &&& 0xF) <<< 8)) ∧
    (get_status r c).right_stick.vertical =
      (byteAt r 10 ||| ((byteAt r 11 &&& 0xF) <<< 4)) ∧
    (get_status stick_max_report c).left_stick.horizontal = 4095 ∧
    (get_status init_input_report c).left_stick.horizontal = 0 :=
  ⟨rfl, rfl, rfl, rfl, rfl, rfl⟩

/-- Witness for C8: the stick-decoding theorem applied at the synthetic
maximum-deflection report and the construction-time calibration state. -/
theorem C8_stick_decoding_witness :
    stick_max_report.length = 49 ∧
    ((get_status stick_max_report zeroCalib).left_stick.horizontal =
      (byteAt stick_max_report 6 ||| ((byteAt stick_max_report 7 &&& 0xF) <<< 8)) ∧
     (get_status stick_max_report zeroCalib).left_stick.vertical =
      (byteAt stick_max_report 7 ||| ((byteAt stick_max_report 8 &&& 0xF) <<< 4)) ∧
     (get_status stick_max_report zeroCalib).right_stick.horizontal =
      (byteAt stick_max_report 9 ||| ((byteAt stick_max_report 10 &&& 0xF) <<< 8)) ∧
     (get_status stick_max_report zeroCalib).right_stick.vertical =
      (byteAt stick_max_report 10 ||| ((byteAt stick_max_report 11 &&& 0xF) <<< 4)) ∧
     (get_status stick_max_report zeroCalib).left_stick.horizontal = 4095 ∧
     (get_status init_input_report zeroCalib).left_stick.horizontal = 0) :=
  ⟨by decide, C8_stick_decoding stick_max_report zeroCalib (by decide)⟩

/-- C9, confirmed. The IMU calibration decoder `to_int16le` assembles its two
byte arguments as an unsigned little-endian 16-bit value and subtracts 65536
when the result is at least 32768; hence encoding any integer in
[-32768, 32767] as two little-endian two's-complement bytes and decoding with
`to_int16le` returns the original value. -/
theorem C9_to_int16le_roundtrip (v : Int) (h1 : -32768 ≤ v) (h2 : v ≤ 32767) :
    to_int16le (int16_to_bytes_le v).1 (int16_to_bytes_le v).2 = v := by
  unfold to_int16le int16_to_bytes_le
  simp only [le_bytes_recombine]
  split <;> omega

/-- Witness for C9: the round-trip theorem applied at the negative value
-12345. -/
theorem C9_to_int16le_roundtrip_witness :
    -32768 ≤ (-12345 : Int) ∧ (-12345 : Int) ≤ 32767 ∧
    to_int16le (int16_to_bytes_le (-12345)).1 (int16_to_bytes_le (-12345)).2 = -12345 :=
  ⟨by decide, by decide, C9_to_int16le_roundtrip (-12345) (by decide) (by decide)⟩

/-- C10, confirmed. The stored raw input report is initialized to exactly 49
zero bytes, and on it `get_status` (with any calibration state) decodes every
button to false, battery charging to false, battery level to 0, and both
coordinates of both sticks to 0. -/
theorem C10_initial_report_status (c : CalibState) :
    init_input_report.length = 49 ∧
    (∀ i, i < 49 → byteAt init_input_report i = 0) ∧
    (get_status init_input_report c).buttons =
      ⟨false, false, false, false, false, false, false, false, false,
       false, false, false, false, false, false, false, false, false⟩ ∧
    (get_status init_input_report c).battery.charging = false ∧
    (get_status init_input_report c).battery.level = 0 ∧
    (get_status init_input_report c).left_stick = ⟨0, 0⟩ ∧
    (get_status init_input_report c).right_stick = ⟨0, 0⟩ :=
  ⟨by decide, by decide, rfl, rfl, rfl, rfl, rfl⟩

end Procon
